import Mathlib

/-!
Shallow embedding of the `agents_ui` backend core: the SQLite-backed session
store (`app/db.py`), the agent registry (`app/agents/__init__.py`), and the
streaming chat dispatcher plus session routes (`app/core.py`).

Modelling conventions:
* SQLite tables become Lean lists of row structures; `AUTOINCREMENT` becomes an
  explicit `nextMessageId` counter on the database state.
* `datetime.utcnow()` is modelled by a caller-supplied timestamp string; the
  successive `utcnow()` calls inside one operation are collapsed to one value,
  which no property here observes.
* Python exceptions from an operation become `Except String`; SQLite's
  `PRIMARY KEY` violation on `INSERT INTO sessions` is the one engine error the
  store itself can raise on these paths.
* A stored `message_list` column holds the serialized JSON of a list of
  messages; it is modelled by its parsed content (a `List String` of opaque
  message values), so that the parse-and-extend in `get_messages` becomes
  `List.flatten`.
-/

namespace AgentsBackend

/-- Row of the `sessions` table created in `Database._connect`
(`id TEXT PRIMARY KEY, title, created_at, last_message_at, agent_name,
username`, all `TEXT NOT NULL`). -/
structure SessionRow where
  id : String
  title : String
  created_at : String
  last_message_at : String
  agent_name : String
  username : String
deriving DecidableEq, Repr

/-- Row of the `messages` table (`id INTEGER PRIMARY KEY AUTOINCREMENT,
session_id TEXT, message_list TEXT, created_at TEXT`); `message_list` is
modelled by its parsed content. -/
structure MessageRow where
  id : Nat
  session_id : String
  message_list : List String
  created_at : String
deriving DecidableEq, Repr

/-- The SQLite database state: the two tables plus the `AUTOINCREMENT`
counter for `messages.id`. -/
structure DB where
  sessions : List SessionRow
  messages : List MessageRow
  nextMessageId : Nat
deriving DecidableEq, Repr

/-- The freshly connected database: both tables empty. -/
def emptyDB : DB := ⟨[], [], 0⟩

/-- The row inserted by `Database._ensure_session_exists` when the session is
absent: title is `f"{agent_name} {utcnow():%Y-%m-%d %H:%M}"`, timestamps are
`utcnow()`. -/
def newSessionRow (session_id username agent_name now : String) : SessionRow :=
  ⟨session_id, agent_name ++ " " ++ now, now, now, agent_name, username⟩

/-- The `WHERE id = ? AND username = ?` predicate used by every
username-scoped query on the `sessions` table. -/
def sessMatch (session_id username : String) (r : SessionRow) : Bool :=
  r.id == session_id && r.username == username

/-- `SELECT ... FROM sessions WHERE id = ? AND username = ?` followed by
`fetchone`: the first row matching both columns. -/
def findSession (db : DB) (session_id username : String) : Option SessionRow :=
  db.sessions.find? (sessMatch session_id username)

/-- `Database._ensure_session_exists(session_id, username, agent_name)`:
check for a row with this id and username; if none, `INSERT` a new session.
The insert hits SQLite's `PRIMARY KEY` constraint when a row with the same id
(necessarily a different username) already exists. -/
def ensure_session_exists (db : DB) (session_id username agent_name now : String) :
    Except String DB :=
  match findSession db session_id username with
  | some _ => .ok db
  | none =>
    if db.sessions.any (fun r => r.id == session_id) then
      .error "UNIQUE constraint failed: sessions.id"
    else
      .ok { db with sessions := db.sessions ++ [newSessionRow session_id username agent_name now] }

/-- The effect of `UPDATE sessions SET last_message_at = ? WHERE id = ?` on
one row. -/
def updLast (session_id now : String) (r : SessionRow) : SessionRow :=
  if r.id == session_id then { r with last_message_at := now } else r

/-- `Database.add_messages(session_id, messages, username, agent_name)`:
ensure the session exists, `INSERT` one `messages` row, then `UPDATE` the
session's `last_message_at` (the update's `WHERE id = ?` is not scoped by
username). -/
def add_messages (db : DB) (session_id : String) (messages : List String)
    (username agent_name now : String) : Except String DB := do
  let db1 ← ensure_session_exists db session_id username agent_name now
  let db2 : DB :=
    { db1 with
      messages := db1.messages ++ [⟨db1.nextMessageId, session_id, messages, now⟩]
      nextMessageId := db1.nextMessageId + 1 }
  .ok { db2 with sessions := db2.sessions.map (updLast session_id now) }

/-- Helper for `ORDER BY m.id`: insert a row into an id-sorted list. -/
def insertById (m : MessageRow) : List MessageRow → List MessageRow
  | [] => [m]
  | x :: xs => if m.id ≤ x.id then m :: x :: xs else x :: insertById m xs

/-- Helper for `ORDER BY m.id`: insertion sort of message rows by id. -/
def sortById : List MessageRow → List MessageRow
  | [] => []
  | x :: xs => insertById x (sortById xs)

/-- `Database.get_messages(session_id, username)`: the join
`SELECT message_list FROM messages m JOIN sessions s ON m.session_id = s.id
WHERE s.id = ? AND s.username = ? ORDER BY m.id`, then each row's payload is
parsed and extended into one flat list (`List.flatten`). The join against the
primary-key table yields rows exactly when a session with this id and
username exists. -/
def get_messages (db : DB) (session_id username : String) : List String :=
  if db.sessions.any (sessMatch session_id username) then
    ((sortById (db.messages.filter (fun m => m.session_id == session_id))).map
      (fun m => m.message_list)).flatten
  else []

/-- `Database.get_session_agent(session_id, username)`: `fetchone` on the
session row, raising `ValueError` when absent. -/
def get_session_agent (db : DB) (session_id username : String) : Except String String :=
  match findSession db session_id username with
  | some r => .ok r.agent_name
  | none => .error ("Session " ++ session_id ++ " not found for user " ++ username)

/-- `Database.delete_session(session_id, username)`: precheck the session row
(scoped by username); if absent return `False`. Otherwise `DELETE` the
session's messages (committed), then `DELETE` the session row, returning
`True`. The `except` clause catches an engine error and returns `False`;
`sessionDeleteRaises` injects such an error on the second `DELETE`, after the
message delete has already committed. -/
def delete_session (db : DB) (session_id username : String)
    (sessionDeleteRaises : Bool) : Bool × DB :=
  match findSession db session_id username with
  | none => (false, db)
  | some _ =>
    let db1 : DB := { db with
      messages := db.messages.filter (fun m => !(m.session_id == session_id)) }
    if sessionDeleteRaises then
      (false, db1)
    else
      (true, { db1 with
        sessions := db1.sessions.filter (fun r => !(r.id == session_id)) })

/-- The fixed agent registry `all_agents` of `app/agents/__init__.py`,
modelled by its keys. -/
def all_agents : List String := ["search_bot", "databot"]

/-- `agents_list()`: the registry keys. -/
def agents_list : List String := all_agents

/-- `get_agent(agent_name)`: dictionary lookup `all_agents[agent_name]`,
raising `KeyError` (here `none`) for a name outside the registry. -/
def get_agent (agent_name : String) : Option String :=
  if all_agents.contains agent_name then some agent_name else none

/-- Modelled from the spec: the serialized form of a node event is a
"JSON-encoded node-event object ... binary sub-fields are base64-encoded
within the JSON" (implemented by pydantic's `dump_json`, external to this
repository). A JSON value after base64-encoding of binary fields. -/
inductive Json where
  | null : Json
  | bool (b : Bool) : Json
  | num (n : Int) : Json
  | str (s : String) : Json
  | arr (elems : List Json) : Json
  | obj (fields : List (String × Json)) : Json

/-- Escape one character for a JSON string literal (control characters and
delimiters; a newline inside a string is emitted as the two characters
backslash-n, as pydantic's encoder does). -/
def escapeChar (c : Char) : String :=
  if c = '"' then "\\\""
  else if c = '\\' then "\\\\"
  else if c = '\n' then "\\n"
  else if c = '\t' then "\\t"
  else if c = '\r' then "\\r"
  else String.singleton c

/-- Render a JSON string literal. -/
def quoteString (s : String) : String :=
  "\"" ++ String.join (s.data.map escapeChar) ++ "\""

mutual

/-- Compact rendering of a JSON value, as pydantic's `dump_json` emits it:
no whitespace, no trailing newline. -/
def Json.render : Json → String
  | .null => "null"
  | .bool b => if b then "true" else "false"
  | .num n => toString n
  | .str s => quoteString s
  | .arr elems => "[" ++ Json.renderElems elems ++ "]"
  | .obj fields => "\x7b" ++ Json.renderFields fields ++ "\x7d"

/-- Comma-separated rendering of JSON array elements. -/
def Json.renderElems : List Json → String
  | [] => ""
  | [x] => Json.render x
  | x :: y :: xs => Json.render x ++ "," ++ Json.renderElems (y :: xs)

/-- Comma-separated rendering of JSON object fields. -/
def Json.renderFields : List (String × Json) → String
  | [] => ""
  | [(k, v)] => quoteString k ++ ":" ++ Json.render v
  | (k, v) :: f :: fs => quoteString k ++ ":" ++ Json.render v ++ "," ++ Json.renderFields (f :: fs)

end

/-- `NodeAdapter.dump_json`: serialize a node payload to JSON bytes. Note: no
newline is appended by the serializer. -/
def dump_json (j : Json) : String := j.render

/-- One execution node produced by `agent_run`, classified the way
`stream_messages` classifies it: `Agent.is_user_prompt_node`,
`is_model_request_node` (carrying `node.request`), `is_call_tools_node`
(carrying `node.model_response`), `is_end_node`, or anything else (with the
node's string rendering, used in the `UnexpectedModelBehavior` message). -/
inductive Node where
  | userPrompt : Node
  | modelRequest (request : Json) : Node
  | callTools (model_response : Json) : Node
  | endNode : Node
  | unknown (descr : String) : Node

/-- Is this node of one of the four recognized kinds? -/
def Node.recognized : Node → Bool
  | .unknown _ => false
  | _ => true

/-- The payload this node flushes as a wire event, if any: `node.request`
for a model-request node, `node.model_response` for a call-tools node. -/
def Node.eventPayload : Node → Option Json
  | .modelRequest r => some r
  | .callTools r => some r
  | _ => none

/-- One chunk yielded by the `stream_messages` generator: the prompt line or
one serialized node event. -/
inductive Chunk where
  | promptLine (text : String) : Chunk
  | eventLine (payload : Json) : Chunk

/-- The exact bytes of a chunk: the prompt is yielded as
`prompt.encode("utf-8") + b"\n"`; a node event is yielded as
`NodeAdapter.dump_json(...)` with nothing appended. -/
def chunkBytes : Chunk → String
  | .promptLine text => text ++ "\n"
  | .eventLine payload => dump_json payload

/-- How a streaming run terminates abnormally: `ValueError` from
`get_session_agent`, `KeyError` from `get_agent`, `UnexpectedModelBehavior`
from an unrecognized node, or a storage-engine error from `add_messages`. -/
inductive StreamErr where
  | sessionNotFound (msg : String) : StreamErr
  | agentNotFound (agent_name : String) : StreamErr
  | unexpectedBehavior (descr : String) : StreamErr
  | storageFailure (msg : String) : StreamErr
deriving DecidableEq, Repr

/-- Outcome of draining the `stream_messages` generator: the chunks flushed
before termination, the resulting database state, the error that aborted the
run (if any), and how many times `add_messages` was called. -/
structure StreamOut where
  chunks : List Chunk
  db : DB
  err : Option StreamErr
  commits : Nat

/-- The `async for node in agent_run` loop body: discard user-prompt and end
nodes, flush one event per model-request or call-tools node, and raise
`UnexpectedModelBehavior` on anything else, flushing nothing further. -/
def processNodes : List Node → List Chunk × Option String
  | [] => ([], none)
  | .userPrompt :: rest => processNodes rest
  | .modelRequest r :: rest =>
    let (cs, e) := processNodes rest
    (Chunk.eventLine r :: cs, e)
  | .callTools r :: rest =>
    let (cs, e) := processNodes rest
    (Chunk.eventLine r :: cs, e)
  | .endNode :: rest => processNodes rest
  | .unknown d :: _ => ([], some d)

/-- The `stream_messages` generator of `post_chat`, drained to completion:
yield the prompt line first, then look up the session's agent
(`get_session_agent`), resolve it in the registry (`get_agent`), load the
history (`get_messages`), iterate the run's nodes, and after the loop call
`add_messages` once with the run's serialized new messages (`newMsgs`, the
value of `agent_run.result.new_messages_json()`). An exception at any point
abandons the generator: chunks already yielded stay flushed, nothing further
is yielded. -/
def stream_messages (db : DB) (prompt session_id username : String)
    (nodes : List Node) (newMsgs : List String) (now : String) : StreamOut :=
  let promptChunk := Chunk.promptLine prompt
  match get_session_agent db session_id username with
  | .error e => ⟨[promptChunk], db, some (.sessionNotFound e), 0⟩
  | .ok agent_name =>
    match get_agent agent_name with
    | none => ⟨[promptChunk], db, some (.agentNotFound agent_name), 0⟩
    | some _ =>
      let _history := get_messages db session_id username
      let (events, perr) := processNodes nodes
      match perr with
      | some d => ⟨promptChunk :: events, db, some (.unexpectedBehavior d), 0⟩
      | none =>
        match add_messages db session_id newMsgs username agent_name now with
        | .error e => ⟨promptChunk :: events, db, some (.storageFailure e), 1⟩
        | .ok db2 => ⟨promptChunk :: events, db2, none, 1⟩

/-- `create_new_session` (POST `/sessions/new`): generate a fresh session id
(modelled as the supplied `session_id`), create the session eagerly via
`database._ensure_session_exists` with the request's (unvalidated)
`agent_name`, and return the id and agent name. -/
def create_new_session (db : DB) (session_id username agent_name now : String) :
    Except String (DB × String × String) :=
  (ensure_session_exists db session_id username agent_name now).map
    (fun db1 => (db1, session_id, agent_name))

/-- One request to a database-touching route of the application: GET `/chat/`,
GET `/agents/`, GET `/sessions/`, POST `/sessions/new`, DELETE
`/sessions/{session_id}`, or POST `/chat/`. Nondeterministic inputs (fresh
ids, clock values, the agent engine's nodes, an engine fault in
`delete_session`) are carried as parameters of the operation. -/
inductive Op where
  | getChatOp (session_id username : String) : Op
  | getAgentsOp : Op
  | getSessionsOp (username : String) : Op
  | newSessionOp (session_id username agent_name now : String) : Op
  | deleteSessionOp (session_id username : String) (fault : Bool) : Op
  | postChatOp (prompt session_id username : String)
      (nodes : List Node) (newMsgs : List String) (now : String) : Op

/-- Is this operation a turn append, i.e. the streaming chat request whose
end-of-run commit calls `add_messages`? -/
def Op.isTurnAppend : Op → Bool
  | .postChatOp _ _ _ _ _ _ => true
  | _ => false

/-- The database state after serving one request: read-only routes leave it
unchanged; a raised exception propagates to the request boundary with the
failed statement rolled back. -/
def applyOp (db : DB) : Op → DB
  | .getChatOp _ _ => db
  | .getAgentsOp => db
  | .getSessionsOp _ => db
  | .newSessionOp session_id username agent_name now =>
    match create_new_session db session_id username agent_name now with
    | .ok (db1, _, _) => db1
    | .error _ => db
  | .deleteSessionOp session_id username fault =>
    (delete_session db session_id username fault).2
  | .postChatOp prompt session_id username nodes newMsgs now =>
    (stream_messages db prompt session_id username nodes newMsgs now).db

/-- The ids of the sessions present in a database state. -/
def DB.sessionIds (db : DB) : List String := db.sessions.map (fun r => r.id)

/-!
Well-formedness of a reachable database state: `messages.id` is assigned by
`AUTOINCREMENT`, so the stored rows are strictly increasing in id and all ids
are below the counter.
-/

/-- Invariant maintained by the store: message rows appear in strictly
increasing id order (as `AUTOINCREMENT` assigns them) and every id is below
the counter. -/
def WF (db : DB) : Prop :=
  db.messages.Pairwise (fun a b => a.id < b.id) ∧
  ∀ m ∈ db.messages, m.id < db.nextMessageId

theorem updLast_id (session_id now : String) (r : SessionRow) :
    (updLast session_id now r).id = r.id := by
  unfold updLast; split <;> rfl

theorem updLast_username (session_id now : String) (r : SessionRow) :
    (updLast session_id now r).username = r.username := by
  unfold updLast; split <;> rfl

theorem updLast_agent_name (session_id now : String) (r : SessionRow) :
    (updLast session_id now r).agent_name = r.agent_name := by
  unfold updLast; split <;> rfl

theorem any_map_eq {α : Type} (f : α → α) (p : α → Bool)
    (hp : ∀ a, p (f a) = p a) : ∀ l : List α, (l.map f).any p = l.any p := by
  intro l
  induction l with
  | nil => rfl
  | cons x xs ih => simp [List.any_cons, hp, ih]

theorem find?_map_eq {α : Type} (f : α → α) (p : α → Bool)
    (hp : ∀ a, p (f a) = p a) :
    ∀ l : List α, (l.map f).find? p = (l.find? p).map f := by
  intro l
  induction l with
  | nil => rfl
  | cons x xs ih =>
    by_cases h : p x
    · simp [List.find?_cons, hp, h]
    · simp only [List.map_cons, List.find?_cons, hp, h]
      simpa [h] using ih

theorem find?_append_of_none {α : Type} (p : α → Bool) (l1 l2 : List α)
    (h : l1.find? p = none) : (l1 ++ l2).find? p = l2.find? p := by
  induction l1 with
  | nil => rfl
  | cons x xs ih =>
    by_cases hx : p x
    · simp [List.find?_cons, hx] at h
    · simp only [List.find?_cons, hx] at h ⊢
      simp only [List.cons_append, List.find?_cons, hx]
      exact ih h

theorem insertById_of_forall_lt (m : MessageRow) (l : List MessageRow)
    (h : ∀ x ∈ l, m.id < x.id) : insertById m l = m :: l := by
  cases l with
  | nil => rfl
  | cons x xs =>
    have hx : m.id ≤ x.id := le_of_lt (h x (by simp))
    simp [insertById, hx]

theorem sortById_eq_self (l : List MessageRow)
    (h : l.Pairwise (fun a b => a.id < b.id)) : sortById l = l := by
  induction l with
  | nil => rfl
  | cons x xs ih =>
    rw [List.pairwise_cons] at h
    rw [sortById, ih h.2, insertById_of_forall_lt x xs h.1]

theorem sessMatch_updLast (sid user s2 now : String) (r : SessionRow) :
    sessMatch sid user (updLast s2 now r) = sessMatch sid user r := by
  unfold updLast sessMatch; split <;> rfl

theorem findSession_none_of_free (db : DB) (sid user : String)
    (hfree : ∀ r ∈ db.sessions, r.id ≠ sid) :
    findSession db sid user = none := by
  apply List.find?_eq_none.mpr
  intro r hr
  simp [sessMatch, hfree r hr]

theorem ensure_existing (db : DB) (sid user a now : String) (r : SessionRow)
    (h : findSession db sid user = some r) :
    ensure_session_exists db sid user a now = .ok db := by
  unfold ensure_session_exists
  rw [h]

theorem ensure_absent (db : DB) (sid user a now : String)
    (hfree : ∀ r ∈ db.sessions, r.id ≠ sid) :
    ensure_session_exists db sid user a now =
      .ok { db with sessions := db.sessions ++ [newSessionRow sid user a now] } := by
  unfold ensure_session_exists
  rw [findSession_none_of_free db sid user hfree]
  have h2 : db.sessions.any (fun r => r.id == sid) = false := by
    rw [List.any_eq_false]
    intro r hr
    simp [hfree r hr]
  rw [h2]
  rfl

theorem add_messages_existing (db : DB) (sid user a now : String) (p : List String)
    (r : SessionRow) (h : findSession db sid user = some r) :
    add_messages db sid p user a now =
      .ok ⟨db.sessions.map (updLast sid now),
           db.messages ++ [⟨db.nextMessageId, sid, p, now⟩],
           db.nextMessageId + 1⟩ := by
  unfold add_messages
  rw [ensure_existing db sid user a now r h]
  rfl

theorem add_messages_absent (db : DB) (sid user a now : String) (p : List String)
    (hfree : ∀ r ∈ db.sessions, r.id ≠ sid) :
    add_messages db sid p user a now =
      .ok ⟨(db.sessions ++ [newSessionRow sid user a now]).map (updLast sid now),
           db.messages ++ [⟨db.nextMessageId, sid, p, now⟩],
           db.nextMessageId + 1⟩ := by
  unfold add_messages
  rw [ensure_absent db sid user a now hfree]
  rfl

theorem findSession_map_updLast (l : List SessionRow) (msgs : List MessageRow)
    (n : Nat) (s2 now sid user : String) :
    findSession ⟨l.map (updLast s2 now), msgs, n⟩ sid user =
      (findSession ⟨l, msgs, n⟩ sid user).map (updLast s2 now) := by
  unfold findSession
  exact find?_map_eq (updLast s2 now) (sessMatch sid user)
    (sessMatch_updLast sid user s2 now) l

theorem any_of_findSession (db : DB) (sid user : String) (r : SessionRow)
    (h : findSession db sid user = some r) :
    db.sessions.any (sessMatch sid user) = true := by
  rw [List.any_eq_true]
  exact ⟨r, List.mem_of_find?_eq_some h, List.find?_some h⟩

theorem filter_pairwise_id (db : DB) (hwf : WF db) (q : MessageRow → Bool) :
    (db.messages.filter q).Pairwise (fun a b => a.id < b.id) :=
  List.Pairwise.sublist (List.filter_sublist _) hwf.1

theorem get_messages_eq_filter (db : DB) (sid user : String) (hwf : WF db)
    (hany : db.sessions.any (sessMatch sid user) = true) :
    get_messages db sid user =
      ((db.messages.filter (fun m => m.session_id == sid)).map
        (fun m => m.message_list)).flatten := by
  unfold get_messages
  rw [hany]
  simp [sortById_eq_self _ (filter_pairwise_id db hwf _)]

theorem WF_addRow (ss : List SessionRow) (db : DB) (sid now : String)
    (p : List String) (hwf : WF db) :
    WF ⟨ss, db.messages ++ [⟨db.nextMessageId, sid, p, now⟩],
        db.nextMessageId + 1⟩ := by
  constructor
  · rw [List.pairwise_append]
    refine ⟨hwf.1, List.pairwise_singleton _ _, ?_⟩
    intro a ha b hb
    have hb1 : b = ⟨db.nextMessageId, sid, p, now⟩ := by simpa using hb
    rw [hb1]
    exact hwf.2 a ha
  · intro m hm
    rcases List.mem_append.mp hm with h | h
    · exact Nat.lt_succ_of_lt (hwf.2 m h)
    · have h1 : m = ⟨db.nextMessageId, sid, p, now⟩ := by simpa using h
      rw [h1]
      exact Nat.lt_succ_self _

theorem get_messages_addResult (ss : List SessionRow) (db : DB)
    (sid user now : String) (p : List String) (hwf : WF db)
    (hany : ss.any (sessMatch sid user) = true) :
    get_messages ⟨ss, db.messages ++ [⟨db.nextMessageId, sid, p, now⟩],
        db.nextMessageId + 1⟩ sid user =
      ((db.messages.filter (fun m => m.session_id == sid)).map
        (fun m => m.message_list)).flatten ++ p := by
  unfold get_messages
  rw [hany]
  simp only [if_true]
  have hfilt : (db.messages ++ [(⟨db.nextMessageId, sid, p, now⟩ : MessageRow)]).filter
      (fun m => m.session_id == sid) =
      db.messages.filter (fun m => m.session_id == sid) ++
        [(⟨db.nextMessageId, sid, p, now⟩ : MessageRow)] := by
    rw [List.filter_append]
    simp
  rw [hfilt]
  have hsorted : (db.messages.filter (fun m => m.session_id == sid) ++
      [(⟨db.nextMessageId, sid, p, now⟩ : MessageRow)]).Pairwise
        (fun a b => a.id < b.id) := by
    rw [List.pairwise_append]
    refine ⟨filter_pairwise_id db hwf _, List.pairwise_singleton _ _, ?_⟩
    intro a ha b hb
    have hb1 : b = ⟨db.nextMessageId, sid, p, now⟩ := by simpa using hb
    rw [hb1]
    exact hwf.2 a (List.mem_of_mem_filter ha)
  rw [sortById_eq_self _ hsorted]
  simp

/-- One `appendTurn` call of a sequence: the agent name passed along, the
turn payload, and the clock value at the call. -/
structure AppendCall where
  agent : String
  payload : List String
  now : String

/-- A sequence of `add_messages` calls on one session id by one owner,
chained on the evolving database state. -/
def addAll (db : DB) (session_id username : String) :
    List AppendCall → Except String DB
  | [] => .ok db
  | c :: cs => do
    let db1 ← add_messages db session_id c.payload username c.agent c.now
    addAll db1 session_id username cs

theorem addAll_existing (sid user : String) (calls : List AppendCall) :
    ∀ db : DB, ∀ r : SessionRow, WF db → findSession db sid user = some r →
      ∃ db2 : DB, addAll db sid user calls = .ok db2 ∧ WF db2 ∧
        (∃ r2 : SessionRow, findSession db2 sid user = some r2) ∧
        get_messages db2 sid user =
          get_messages db sid user ++ (calls.map (fun c => c.payload)).flatten := by
  induction calls with
  | nil =>
    intro db r hwf hfind
    exact ⟨db, rfl, hwf, ⟨r, hfind⟩, by simp⟩
  | cons c cs ih =>
    intro db r hwf hfind
    have hadd := add_messages_existing db sid user c.agent c.now c.payload r hfind
    set db1 : DB := ⟨db.sessions.map (updLast sid c.now),
      db.messages ++ [⟨db.nextMessageId, sid, c.payload, c.now⟩],
      db.nextMessageId + 1⟩ with hdb1
    have hwf1 : WF db1 := WF_addRow _ db sid c.now c.payload hwf
    have hfind1 : findSession db1 sid user = some (updLast sid c.now r) := by
      have h0 : findSession db1 sid user =
          (findSession ⟨db.sessions, db1.messages, db1.nextMessageId⟩ sid user).map
            (updLast sid c.now) :=
        findSession_map_updLast db.sessions db1.messages db1.nextMessageId sid c.now sid user
      have h1 : findSession ⟨db.sessions, db1.messages, db1.nextMessageId⟩ sid user =
          findSession db sid user := rfl
      rw [h0, h1, hfind]
      rfl
    have hany1 : db1.sessions.any (sessMatch sid user) = true :=
      any_of_findSession db1 sid user _ hfind1
    have hany0 : db.sessions.any (sessMatch sid user) = true :=
      any_of_findSession db sid user r hfind
    have hget1 : get_messages db1 sid user = get_messages db sid user ++ c.payload := by
      rw [get_messages_addResult db1.sessions db sid user c.now c.payload hwf hany1,
        get_messages_eq_filter db sid user hwf hany0]
    rcases ih db1 (updLast sid c.now r) hwf1 hfind1 with ⟨db2, hrun, hwf2, hfind2, hget2⟩
    refine ⟨db2, ?_, hwf2, hfind2, ?_⟩
    · rw [addAll, hadd]
      exact hrun
    · rw [hget2, hget1]
      simp

theorem findSession_after_create (db : DB) (sid user a now : String)
    (msgs : List MessageRow) (n : Nat)
    (hfree : ∀ r ∈ db.sessions, r.id ≠ sid) :
    findSession ⟨(db.sessions ++ [newSessionRow sid user a now]).map (updLast sid now),
        msgs, n⟩ sid user =
      some (updLast sid now (newSessionRow sid user a now)) := by
  rw [findSession_map_updLast]
  have h0 : findSession ⟨db.sessions ++ [newSessionRow sid user a now], msgs, n⟩ sid user =
      (db.sessions ++ [newSessionRow sid user a now]).find? (sessMatch sid user) := rfl
  rw [h0]
  have h1 : db.sessions.find? (sessMatch sid user) = none :=
    findSession_none_of_free db sid user hfree
  rw [find?_append_of_none _ _ _ h1]
  simp [sessMatch, newSessionRow]

theorem first_add_creates (db : DB) (sid user a now : String) (p : List String)
    (hwf : WF db)
    (hfree : ∀ r ∈ db.sessions, r.id ≠ sid)
    (hno : ∀ m ∈ db.messages, m.session_id ≠ sid) :
    ∃ db1 : DB, add_messages db sid p user a now = .ok db1 ∧ WF db1 ∧
      findSession db1 sid user = some (updLast sid now (newSessionRow sid user a now)) ∧
      get_messages db1 sid user = p := by
  have hadd := add_messages_absent db sid user a now p hfree
  set db1 : DB := ⟨(db.sessions ++ [newSessionRow sid user a now]).map (updLast sid now),
    db.messages ++ [⟨db.nextMessageId, sid, p, now⟩], db.nextMessageId + 1⟩ with hdb1
  have hfind1 : findSession db1 sid user =
      some (updLast sid now (newSessionRow sid user a now)) :=
    findSession_after_create db sid user a now db1.messages db1.nextMessageId hfree
  have hany1 : db1.sessions.any (sessMatch sid user) = true :=
    any_of_findSession db1 sid user _ hfind1
  refine ⟨db1, hadd, WF_addRow _ db sid now p hwf, hfind1, ?_⟩
  rw [get_messages_addResult db1.sessions db sid user now p hwf hany1]
  have hfilt : db.messages.filter (fun m => m.session_id == sid) = [] := by
    rw [List.filter_eq_nil_iff]
    intro m hm
    simp [hno m hm]
  rw [hfilt]
  simp

/-- C1: for every sequence of N `appendTurn` (`add_messages`) calls on one
session id by the same owner, starting from a well-formed state holding no
turn of that session and in which the session either already belongs to that
owner or does not exist at all, `getTranscript` (`get_messages`) with that id
and owner returns the N turn payloads concatenated in call order. -/
theorem C1_append_then_transcript (db : DB) (sid user : String)
    (calls : List AppendCall) (hwf : WF db)
    (hno : ∀ m ∈ db.messages, m.session_id ≠ sid)
    (hsess : (∀ r ∈ db.sessions, r.id ≠ sid) ∨
      ∃ r : SessionRow, findSession db sid user = some r) :
    ∃ db2 : DB, addAll db sid user calls = .ok db2 ∧
      get_messages db2 sid user = (calls.map (fun c => c.payload)).flatten := by
  have hfilt : db.messages.filter (fun m => m.session_id == sid) = [] := by
    rw [List.filter_eq_nil_iff]
    intro m hm
    simp [hno m hm]
  rcases hsess with hfree | ⟨r, hfind⟩
  · cases calls with
    | nil =>
      refine ⟨db, rfl, ?_⟩
      unfold get_messages
      have hany : db.sessions.any (sessMatch sid user) = false := by
        rw [List.any_eq_false]
        intro r hr
        simp [sessMatch, hfree r hr]
      rw [hany]
      simp
    | cons c cs =>
      rcases first_add_creates db sid user c.agent c.now c.payload hwf hfree hno with
        ⟨db1, hadd, hwf1, hfind1, hget1⟩
      rcases addAll_existing sid user cs db1 _ hwf1 hfind1 with
        ⟨db2, hrun, _, _, hget2⟩
      refine ⟨db2, ?_, ?_⟩
      · rw [addAll, hadd]
        exact hrun
      · rw [hget2, hget1]
        simp
  · rcases addAll_existing sid user calls db r hwf hfind with ⟨db2, hrun, _, _, hget2⟩
    refine ⟨db2, hrun, ?_⟩
    rw [hget2, get_messages_eq_filter db sid user hwf (any_of_findSession db sid user r hfind),
      hfilt]
    simp

/-- Witness for C1: two appends on a fresh store, transcript is the
concatenation of the two payloads. -/
theorem C1_append_then_transcript_witness :
    ∃ db2 : DB, addAll emptyDB "s1" "alice"
        [⟨"databot", ["m1", "m2"], "t1"⟩, ⟨"databot", ["m3"], "t2"⟩] = .ok db2 ∧
      get_messages db2 "s1" "alice" = ["m1", "m2", "m3"] :=
  C1_append_then_transcript emptyDB "s1" "alice"
    [⟨"databot", ["m1", "m2"], "t1"⟩, ⟨"databot", ["m3"], "t2"⟩]
    (by constructor <;> simp [emptyDB]) (by simp [emptyDB])
    (Or.inl (by simp [emptyDB]))

/-- C5: `appendTurn` (`add_messages`) on an unknown session id creates the
session with the supplied agent identifier and owner, and a later
`appendTurn` with the same id and owner but any different agent identifier
leaves the stored agent identifier and owner unchanged — for every pair of
calls, payloads and clock values. -/
theorem C5_create_if_absent_idempotent (db : DB) (sid user a1 a2 now1 now2 : String)
    (p1 p2 : List String)
    (hfree : ∀ r ∈ db.sessions, r.id ≠ sid) :
    ∃ db1 db2 : DB, ∃ r1 r2 : SessionRow,
      add_messages db sid p1 user a1 now1 = .ok db1 ∧
      findSession db1 sid user = some r1 ∧ r1.agent_name = a1 ∧ r1.username = user ∧
      add_messages db1 sid p2 user a2 now2 = .ok db2 ∧
      findSession db2 sid user = some r2 ∧ r2.agent_name = a1 ∧ r2.username = user := by
  have hadd1 := add_messages_absent db sid user a1 now1 p1 hfree
  set db1 : DB := ⟨(db.sessions ++ [newSessionRow sid user a1 now1]).map (updLast sid now1),
    db.messages ++ [⟨db.nextMessageId, sid, p1, now1⟩], db.nextMessageId + 1⟩ with hdb1
  have hfind1 : findSession db1 sid user =
      some (updLast sid now1 (newSessionRow sid user a1 now1)) :=
    findSession_after_create db sid user a1 now1 db1.messages db1.nextMessageId hfree
  set r1 : SessionRow := updLast sid now1 (newSessionRow sid user a1 now1) with hr1
  have hadd2 := add_messages_existing db1 sid user a2 now2 p2 r1 hfind1
  set db2 : DB := ⟨db1.sessions.map (updLast sid now2),
    db1.messages ++ [⟨db1.nextMessageId, sid, p2, now2⟩], db1.nextMessageId + 1⟩ with hdb2
  have hfind2 : findSession db2 sid user = some (updLast sid now2 r1) := by
    have h0 : findSession db2 sid user =
        (findSession ⟨db1.sessions, db2.messages, db2.nextMessageId⟩ sid user).map
          (updLast sid now2) :=
      findSession_map_updLast db1.sessions db2.messages db2.nextMessageId sid now2 sid user
    have h1 : findSession ⟨db1.sessions, db2.messages, db2.nextMessageId⟩ sid user =
        findSession db1 sid user := rfl
    rw [h0, h1, hfind1]
    rfl
  refine ⟨db1, db2, r1, updLast sid now2 r1, hadd1, hfind1, ?_, ?_, hadd2, hfind2, ?_, ?_⟩
  · rw [hr1, updLast_agent_name]
    rfl
  · rw [hr1, updLast_username]
    rfl
  · rw [updLast_agent_name, hr1, updLast_agent_name]
    rfl
  · rw [updLast_username, hr1, updLast_username]
    rfl

/-- Witness for C5: create session "s1" for "alice" with agent "databot",
then append with agent "search_bot"; the stored agent stays "databot". -/
theorem C5_create_if_absent_idempotent_witness :
    ∃ db1 db2 : DB, ∃ r1 r2 : SessionRow,
      add_messages emptyDB "s1" ["m1"] "alice" "databot" "t1" = .ok db1 ∧
      findSession db1 "s1" "alice" = some r1 ∧
        r1.agent_name = "databot" ∧ r1.username = "alice" ∧
      add_messages db1 "s1" ["m2"] "alice" "search_bot" "t2" = .ok db2 ∧
      findSession db2 "s1" "alice" = some r2 ∧
        r2.agent_name = "databot" ∧ r2.username = "alice" :=
  C5_create_if_absent_idempotent emptyDB "s1" "alice" "databot" "search_bot" "t1" "t2"
    ["m1"] ["m2"] (by simp [emptyDB])

theorem findSession_some_of_exists (db : DB) (sid user : String)
    (h : ∃ r ∈ db.sessions, r.id = sid ∧ r.username = user) :
    ∃ r0 : SessionRow, findSession db sid user = some r0 := by
  rcases h with ⟨r, hr, hid, hu⟩
  have : (db.sessions.find? (sessMatch sid user)).isSome := by
    rw [List.find?_isSome]
    exact ⟨r, hr, by simp [sessMatch, hid, hu]⟩
  rcases Option.isSome_iff_exists.mp this with ⟨r0, h0⟩
  exact ⟨r0, h0⟩

theorem findSession_none_of_not_exists (db : DB) (sid user : String)
    (h : ∀ r ∈ db.sessions, ¬(r.id = sid ∧ r.username = user)) :
    findSession db sid user = none := by
  apply List.find?_eq_none.mpr
  intro r hr
  simp only [sessMatch, Bool.and_eq_true, beq_iff_eq]
  intro hc
  exact h r hr hc

/-- C6: `deleteSession(id, owner)` (without an engine fault) returns false
and leaves the state untouched when no session with that id is owned by the
caller, and when the owner matches it returns true and removes the session
row together with exactly that session's turn rows. -/
theorem C6_delete_session_owner_scoped (db : DB) (sid user : String) :
    ((∀ r ∈ db.sessions, ¬(r.id = sid ∧ r.username = user)) →
      delete_session db sid user false = (false, db)) ∧
    ((∃ r ∈ db.sessions, r.id = sid ∧ r.username = user) →
      delete_session db sid user false =
        (true, ⟨db.sessions.filter (fun r => !(r.id == sid)),
                db.messages.filter (fun m => !(m.session_id == sid)),
                db.nextMessageId⟩)) := by
  constructor
  · intro h
    unfold delete_session
    rw [findSession_none_of_not_exists db sid user h]
  · intro h
    rcases findSession_some_of_exists db sid user h with ⟨r0, h0⟩
    unfold delete_session
    rw [h0]
    rfl

/-- Witness for C6: owner-matching delete removes the session and its turn;
it is applied to a store holding one session of "alice" with one turn. -/
theorem C6_delete_session_owner_scoped_witness :
    delete_session ⟨[newSessionRow "s1" "alice" "databot" "t0"],
        [⟨0, "s1", ["m1"], "t0"⟩], 1⟩ "s1" "alice" false =
      (true, ⟨[], [], 1⟩) :=
  (C6_delete_session_owner_scoped
    ⟨[newSessionRow "s1" "alice" "databot" "t0"], [⟨0, "s1", ["m1"], "t0"⟩], 1⟩
    "s1" "alice").2 (by decide)

/-- Counterexample to C7 as stated: when the engine raises on the session-row
`DELETE` (after the message `DELETE` has committed), `delete_session` returns
false yet the session's turn row has already been removed. -/
theorem C7_counterexample :
    (delete_session ⟨[newSessionRow "s1" "alice" "databot" "t0"],
        [⟨0, "s1", ["m1"], "t0"⟩], 1⟩ "s1" "alice" true).1 = false ∧
    (delete_session ⟨[newSessionRow "s1" "alice" "databot" "t0"],
        [⟨0, "s1", ["m1"], "t0"⟩], 1⟩ "s1" "alice" true).2.messages = [] ∧
    (⟨[newSessionRow "s1" "alice" "databot" "t0"],
        [⟨0, "s1", ["m1"], "t0"⟩], 1⟩ : DB).messages ≠ [] := by
  decide

/-- C7 (amended): when `deleteSession` returns false because the session is
absent or owned by someone else, nothing changed; a fault-free
owner-authorized delete removes the session and its turns together; but an
engine error on the session-row `DELETE` makes it return false with the turn
rows already deleted and the session row still present — the destruction is
not atomic on that path. -/
theorem C7_delete_atomicity_amended (db : DB) (sid user : String) (fault : Bool) :
    ((∀ r ∈ db.sessions, ¬(r.id = sid ∧ r.username = user)) →
      delete_session db sid user fault = (false, db)) ∧
    ((∃ r ∈ db.sessions, r.id = sid ∧ r.username = user) → fault = false →
      delete_session db sid user fault =
        (true, ⟨db.sessions.filter (fun r => !(r.id == sid)),
                db.messages.filter (fun m => !(m.session_id == sid)),
                db.nextMessageId⟩)) ∧
    ((∃ r ∈ db.sessions, r.id = sid ∧ r.username = user) → fault = true →
      delete_session db sid user fault =
        (false, ⟨db.sessions,
                 db.messages.filter (fun m => !(m.session_id == sid)),
                 db.nextMessageId⟩)) := by
  refine ⟨?_, ?_, ?_⟩
  · intro h
    unfold delete_session
    rw [findSession_none_of_not_exists db sid user h]
  · intro h hf
    rcases findSession_some_of_exists db sid user h with ⟨r0, h0⟩
    unfold delete_session
    rw [h0, hf]
    rfl
  · intro h hf
    rcases findSession_some_of_exists db sid user h with ⟨r0, h0⟩
    unfold delete_session
    rw [h0, hf]
    rfl

/-- Witness for the amended C7: the faulty path returns false with the turn
row gone and the session row still present. -/
theorem C7_delete_atomicity_amended_witness :
    delete_session ⟨[newSessionRow "s1" "alice" "databot" "t0"],
        [⟨0, "s1", ["m1"], "t0"⟩], 1⟩ "s1" "alice" true =
      (false, ⟨[newSessionRow "s1" "alice" "databot" "t0"], [], 1⟩) :=
  (C7_delete_atomicity_amended
    ⟨[newSessionRow "s1" "alice" "databot" "t0"], [⟨0, "s1", ["m1"], "t0"⟩], 1⟩
    "s1" "alice" true).2.2 (by decide) rfl

/-- C8: when the session does not exist or belongs to a different owner,
`getTranscript` (`get_messages`) returns the empty sequence with no error,
while `getAgentFor` (`get_session_agent`) fails with a "not found" error in
exactly those cases and returns the stored agent name otherwise. -/
theorem C8_transcript_empty_agent_not_found (db : DB) (sid user : String) :
    ((∀ r ∈ db.sessions, ¬(r.id = sid ∧ r.username = user)) →
      get_messages db sid user = [] ∧
      get_session_agent db sid user =
        .error ("Session " ++ sid ++ " not found for user " ++ user)) ∧
    ((∃ r ∈ db.sessions, r.id = sid ∧ r.username = user) →
      ∃ r0 : SessionRow, findSession db sid user = some r0 ∧
        get_session_agent db sid user = .ok r0.agent_name) := by
  constructor
  · intro h
    have hnone := findSession_none_of_not_exists db sid user h
    constructor
    · unfold get_messages
      have hany : db.sessions.any (sessMatch sid user) = false := by
        rw [List.any_eq_false]
        intro r hr
        simp only [sessMatch, Bool.and_eq_true, beq_iff_eq]
        intro hc
        exact h r hr hc
      rw [hany]
      simp
    · unfold get_session_agent
      rw [hnone]
  · intro h
    rcases findSession_some_of_exists db sid user h with ⟨r0, h0⟩
    refine ⟨r0, h0, ?_⟩
    unfold get_session_agent
    rw [h0]

/-- Witness for C8: session "s1" belongs to "alice"; for caller "bob" the
transcript is empty and the agent lookup raises "not found". -/
theorem C8_transcript_empty_agent_not_found_witness :
    get_messages ⟨[newSessionRow "s1" "alice" "databot" "t0"],
        [⟨0, "s1", ["m1"], "t0"⟩], 1⟩ "s1" "bob" = [] ∧
    get_session_agent ⟨[newSessionRow "s1" "alice" "databot" "t0"],
        [⟨0, "s1", ["m1"], "t0"⟩], 1⟩ "s1" "bob" =
      .error "Session s1 not found for user bob" :=
  (C8_transcript_empty_agent_not_found
    ⟨[newSessionRow "s1" "alice" "databot" "t0"], [⟨0, "s1", ["m1"], "t0"⟩], 1⟩
    "s1" "bob").1 (by decide)

theorem processNodes_recognized (nodes : List Node)
    (h : ∀ n ∈ nodes, n.recognized = true) :
    processNodes nodes =
      (nodes.filterMap (fun n => (n.eventPayload).map Chunk.eventLine), none) := by
  induction nodes with
  | nil => rfl
  | cons n ns ih =>
    have hn := h n (by simp)
    have hns : ∀ m ∈ ns, m.recognized = true := fun m hm => h m (by simp [hm])
    cases n with
    | userPrompt => simp [processNodes, List.filterMap_cons, Node.eventPayload, ih hns]
    | modelRequest r => simp [processNodes, List.filterMap_cons, Node.eventPayload, ih hns]
    | callTools r => simp [processNodes, List.filterMap_cons, Node.eventPayload, ih hns]
    | endNode => simp [processNodes, List.filterMap_cons, Node.eventPayload, ih hns]
    | unknown d => simp [Node.recognized] at hn

theorem processNodes_unknown (pre : List Node) (d : String) (post : List Node)
    (h : ∀ n ∈ pre, n.recognized = true) :
    processNodes (pre ++ Node.unknown d :: post) =
      (pre.filterMap (fun n => (n.eventPayload).map Chunk.eventLine), some d) := by
  induction pre with
  | nil => simp [processNodes]
  | cons n ns ih =>
    have hn := h n (by simp)
    have hns : ∀ m ∈ ns, m.recognized = true := fun m hm => h m (by simp [hm])
    cases n with
    | userPrompt => simp [processNodes, List.filterMap_cons, Node.eventPayload, ih hns]
    | modelRequest r => simp [processNodes, List.filterMap_cons, Node.eventPayload, ih hns]
    | callTools r => simp [processNodes, List.filterMap_cons, Node.eventPayload, ih hns]
    | endNode => simp [processNodes, List.filterMap_cons, Node.eventPayload, ih hns]
    | unknown d2 => simp [Node.recognized] at hn

theorem get_session_agent_of_find (db : DB) (sid user : String) (r : SessionRow)
    (h : findSession db sid user = some r) :
    get_session_agent db sid user = .ok r.agent_name := by
  unfold get_session_agent
  rw [h]

theorem get_agent_of_contains (a : String) (h : all_agents.contains a = true) :
    get_agent a = some a := by
  unfold get_agent
  rw [h]
  rfl

theorem stream_messages_success (db : DB) (prompt sid user now : String)
    (nodes : List Node) (newMsgs : List String) (r : SessionRow)
    (hfind : findSession db sid user = some r)
    (hreg : all_agents.contains r.agent_name = true)
    (hrec : ∀ n ∈ nodes, n.recognized = true) :
    stream_messages db prompt sid user nodes newMsgs now =
      ⟨Chunk.promptLine prompt ::
         nodes.filterMap (fun n => (n.eventPayload).map Chunk.eventLine),
       ⟨db.sessions.map (updLast sid now),
        db.messages ++ [⟨db.nextMessageId, sid, newMsgs, now⟩],
        db.nextMessageId + 1⟩,
       none, 1⟩ := by
  unfold stream_messages
  simp only [get_session_agent_of_find db sid user r hfind,
    get_agent_of_contains r.agent_name hreg,
    processNodes_recognized nodes hrec,
    add_messages_existing db sid user r.agent_name now newMsgs r hfind]

theorem length_filterMap_eventPayload (nodes : List Node) :
    (nodes.filterMap (fun n => (n.eventPayload).map Chunk.eventLine)).length =
      nodes.countP (fun n => (n.eventPayload).isSome) := by
  induction nodes with
  | nil => rfl
  | cons n ns ih =>
    cases h : n.eventPayload with
    | none => simp [List.filterMap_cons, List.countP_cons, h, ih]
    | some v => simp [List.filterMap_cons, List.countP_cons, h, ih]

/-- C2: draining a streaming run whose agent engine emits only recognized
nodes yields the prompt chunk first, then exactly one wire event per
accepted node (model-request or tool-invocation) in emission order, and the
run performs exactly one `add_messages` call — also when zero nodes are
accepted — and finishes without error. -/
theorem C2_stream_order_single_commit (db : DB) (prompt sid user now : String)
    (nodes : List Node) (newMsgs : List String) (r : SessionRow)
    (hfind : findSession db sid user = some r)
    (hreg : all_agents.contains r.agent_name = true)
    (hrec : ∀ n ∈ nodes, n.recognized = true) :
    (stream_messages db prompt sid user nodes newMsgs now).chunks =
      Chunk.promptLine prompt ::
        nodes.filterMap (fun n => (n.eventPayload).map Chunk.eventLine) ∧
    (stream_messages db prompt sid user nodes newMsgs now).chunks.length =
      1 + nodes.countP (fun n => (n.eventPayload).isSome) ∧
    (stream_messages db prompt sid user nodes newMsgs now).commits = 1 ∧
    (stream_messages db prompt sid user nodes newMsgs now).err = none := by
  rw [stream_messages_success db prompt sid user now nodes newMsgs r hfind hreg hrec]
  refine ⟨rfl, ?_, rfl, rfl⟩
  simp only [List.length_cons, length_filterMap_eventPayload]
  omega

/-- Witness for C2: a run over one session with one model-request node and
one tool-invocation node flushes the prompt plus two events and commits
once. -/
theorem C2_stream_order_single_commit_witness :
    (stream_messages ⟨[newSessionRow "s1" "alice" "databot" "t0"], [], 0⟩
        "hi" "s1" "alice"
        [Node.userPrompt, Node.modelRequest (Json.str "q"),
         Node.callTools (Json.str "r"), Node.endNode] ["nm"] "t1").chunks =
      [Chunk.promptLine "hi", Chunk.eventLine (Json.str "q"),
       Chunk.eventLine (Json.str "r")] ∧
    (stream_messages ⟨[newSessionRow "s1" "alice" "databot" "t0"], [], 0⟩
        "hi" "s1" "alice"
        [Node.userPrompt, Node.modelRequest (Json.str "q"),
         Node.callTools (Json.str "r"), Node.endNode] ["nm"] "t1").chunks.length = 3 ∧
    (stream_messages ⟨[newSessionRow "s1" "alice" "databot" "t0"], [], 0⟩
        "hi" "s1" "alice"
        [Node.userPrompt, Node.modelRequest (Json.str "q"),
         Node.callTools (Json.str "r"), Node.endNode] ["nm"] "t1").commits = 1 ∧
    (stream_messages ⟨[newSessionRow "s1" "alice" "databot" "t0"], [], 0⟩
        "hi" "s1" "alice"
        [Node.userPrompt, Node.modelRequest (Json.str "q"),
         Node.callTools (Json.str "r"), Node.endNode] ["nm"] "t1").err = none :=
  C2_stream_order_single_commit ⟨[newSessionRow "s1" "alice" "databot" "t0"], [], 0⟩
    "hi" "s1" "alice" "t1"
    [Node.userPrompt, Node.modelRequest (Json.str "q"),
     Node.callTools (Json.str "r"), Node.endNode] ["nm"]
    (newSessionRow "s1" "alice" "databot" "t0") (by decide) (by decide)
    (by decide)

/-- C9: when the agent engine emits a node of unrecognized kind, the run
aborts with the protocol-violation error: the chunks flushed are exactly the
prompt plus the events of the nodes before it, nothing is flushed for that
node or any later node, no terminator is written, `add_messages` is never
called, and the stored state is unchanged. -/
theorem C9_unknown_node_aborts (db : DB) (prompt sid user now : String)
    (pre post : List Node) (d : String) (newMsgs : List String) (r : SessionRow)
    (hfind : findSession db sid user = some r)
    (hreg : all_agents.contains r.agent_name = true)
    (hpre : ∀ n ∈ pre, n.recognized = true) :
    stream_messages db prompt sid user (pre ++ Node.unknown d :: post) newMsgs now =
      ⟨Chunk.promptLine prompt ::
         pre.filterMap (fun n => (n.eventPayload).map Chunk.eventLine),
       db, some (.unexpectedBehavior d), 0⟩ := by
  unfold stream_messages
  simp only [get_session_agent_of_find db sid user r hfind,
    get_agent_of_contains r.agent_name hreg,
    processNodes_unknown pre d post hpre]

/-- Witness for C9: a run hitting an unrecognized node after one accepted
node flushes only the prompt and that one event, reports the protocol
violation, performs no commit and leaves the store unchanged. -/
theorem C9_unknown_node_aborts_witness :
    stream_messages ⟨[newSessionRow "s1" "alice" "databot" "t0"], [], 0⟩
        "hi" "s1" "alice"
        ([Node.modelRequest (Json.str "q")] ++
          Node.unknown "bad" :: [Node.endNode]) ["nm"] "t1" =
      ⟨[Chunk.promptLine "hi", Chunk.eventLine (Json.str "q")],
       ⟨[newSessionRow "s1" "alice" "databot" "t0"], [], 0⟩,
       some (.unexpectedBehavior "bad"), 0⟩ :=
  C9_unknown_node_aborts ⟨[newSessionRow "s1" "alice" "databot" "t0"], [], 0⟩
    "hi" "s1" "alice" "t1" [Node.modelRequest (Json.str "q")] [Node.endNode]
    "bad" ["nm"] (newSessionRow "s1" "alice" "databot" "t0")
    (by decide) (by decide) (by decide)

/-- Counterexample to C3 as stated: in a run with one accepted node the
second chunk of the body is the bare JSON encoding of the event with no
newline appended, so not every chunk is newline-terminated. -/
theorem C3_counterexample :
    (stream_messages ⟨[newSessionRow "s1" "alice" "databot" "t0"], [], 0⟩
        "hi" "s1" "alice"
        [Node.modelRequest (Json.obj [("kind", Json.str "request")])]
        [] "t1").chunks.map chunkBytes =
      ["hi\n", "\x7b\"kind\":\"request\"\x7d"] ∧
    ("\x7b\"kind\":\"request\"\x7d").data.getLast? = some '\x7d' ∧
    ('\x7d' : Char) ≠ '\n' := by
  refine ⟨rfl, by decide, by decide⟩

theorem map_chunkBytes_filterMap (nodes : List Node) :
    ((nodes.filterMap (fun n => (n.eventPayload).map Chunk.eventLine)).map
        chunkBytes) =
      (nodes.filterMap Node.eventPayload).map dump_json := by
  induction nodes with
  | nil => rfl
  | cons n ns ih =>
    cases h : n.eventPayload with
    | none => simp [List.filterMap_cons, h, ih]
    | some v => simp [List.filterMap_cons, h, ih, chunkBytes]

/-- C3 (amended): the streaming body's first chunk is the raw prompt bytes
followed by a newline; each subsequent flushed node contributes exactly one
chunk holding exactly the JSON encoding of its event payload, with no
newline terminator appended. -/
theorem C3_chunk_bytes_amended (db : DB) (prompt sid user now : String)
    (nodes : List Node) (newMsgs : List String) (r : SessionRow)
    (hfind : findSession db sid user = some r)
    (hreg : all_agents.contains r.agent_name = true)
    (hrec : ∀ n ∈ nodes, n.recognized = true) :
    (stream_messages db prompt sid user nodes newMsgs now).chunks.map chunkBytes =
      (prompt ++ "\n") :: (nodes.filterMap Node.eventPayload).map dump_json := by
  rw [stream_messages_success db prompt sid user now nodes newMsgs r hfind hreg hrec]
  simp only [List.map_cons, chunkBytes, map_chunkBytes_filterMap]

/-- Witness for the amended C3: one accepted node yields exactly the prompt
line and one bare JSON chunk. -/
theorem C3_chunk_bytes_amended_witness :
    (stream_messages ⟨[newSessionRow "s1" "alice" "databot" "t0"], [], 0⟩
        "hi" "s1" "alice" [Node.modelRequest (Json.str "q")] [] "t1").chunks.map
        chunkBytes =
      ["hi\n", "\"q\""] :=
  C3_chunk_bytes_amended ⟨[newSessionRow "s1" "alice" "databot" "t0"], [], 0⟩
    "hi" "s1" "alice" "t1" [Node.modelRequest (Json.str "q")] []
    (newSessionRow "s1" "alice" "databot" "t0")
    (by decide) (by decide) (by decide)

theorem get_agent_of_not_contains (a : String) (h : all_agents.contains a = false) :
    get_agent a = none := by
  unfold get_agent
  rw [h]
  rfl

/-- C10: `get_agent` is partial — it fails for every name outside the fixed
registry — while session creation accepts an arbitrary agent name, so a
session can be bound to an unknown agent; every streaming run on such a
session then aborts with the lookup failure after the prompt line has
already been flushed, with no commit and no state change. -/
theorem C10_unknown_agent_binding (name : String)
    (hname : all_agents.contains name = false)
    (db : DB) (sid user now0 : String)
    (hfree : ∀ r ∈ db.sessions, r.id ≠ sid)
    (prompt now : String) (nodes : List Node) (newMsgs : List String) :
    get_agent name = none ∧
    create_new_session db sid user name now0 =
      .ok ({ db with sessions := db.sessions ++ [newSessionRow sid user name now0] },
        sid, name) ∧
    (∃ row : SessionRow,
      findSession { db with sessions := db.sessions ++ [newSessionRow sid user name now0] }
        sid user = some row ∧ row.agent_name = name) ∧
    stream_messages { db with sessions := db.sessions ++ [newSessionRow sid user name now0] }
        prompt sid user nodes newMsgs now =
      ⟨[Chunk.promptLine prompt],
       { db with sessions := db.sessions ++ [newSessionRow sid user name now0] },
       some (.agentNotFound name), 0⟩ := by
  set db1 : DB := { db with sessions := db.sessions ++ [newSessionRow sid user name now0] }
    with hdb1
  have hfind1 : findSession db1 sid user = some (newSessionRow sid user name now0) := by
    have h0 : findSession db1 sid user =
        (db.sessions ++ [newSessionRow sid user name now0]).find? (sessMatch sid user) := rfl
    rw [h0, find?_append_of_none _ _ _ (findSession_none_of_free db sid user hfree)]
    simp [sessMatch, newSessionRow]
  refine ⟨get_agent_of_not_contains name hname, ?_, ⟨newSessionRow sid user name now0,
    hfind1, rfl⟩, ?_⟩
  · unfold create_new_session
    rw [ensure_absent db sid user name now0 hfree]
    rfl
  · unfold stream_messages
    simp only [get_session_agent_of_find db1 sid user _ hfind1]
    have hag : (newSessionRow sid user name now0).agent_name = name := rfl
    rw [hag, get_agent_of_not_contains name hname]

/-- Witness for C10: binding session "s1" to the unregistered agent "bogus"
succeeds, and a streaming run on it aborts right after the prompt line. -/
theorem C10_unknown_agent_binding_witness :
    get_agent "bogus" = none ∧
    create_new_session emptyDB "s1" "alice" "bogus" "t0" =
      .ok ({ emptyDB with
        sessions := emptyDB.sessions ++ [newSessionRow "s1" "alice" "bogus" "t0"] },
        "s1", "bogus") ∧
    (∃ row : SessionRow,
      findSession { emptyDB with
          sessions := emptyDB.sessions ++ [newSessionRow "s1" "alice" "bogus" "t0"] }
        "s1" "alice" = some row ∧ row.agent_name = "bogus") ∧
    stream_messages { emptyDB with
        sessions := emptyDB.sessions ++ [newSessionRow "s1" "alice" "bogus" "t0"] }
        "hi" "s1" "alice" [Node.userPrompt] ["nm"] "t1" =
      ⟨[Chunk.promptLine "hi"],
       { emptyDB with
         sessions := emptyDB.sessions ++ [newSessionRow "s1" "alice" "bogus" "t0"] },
       some (.agentNotFound "bogus"), 0⟩ :=
  C10_unknown_agent_binding "bogus" (by decide) emptyDB "s1" "alice" "t0"
    (by decide) "hi" "t1" [Node.userPrompt] ["nm"]

theorem sessionIds_map_updLast (l : List SessionRow) (sid now : String) :
    (l.map (updLast sid now)).map (fun r => r.id) = l.map (fun r => r.id) := by
  induction l with
  | nil => rfl
  | cons x xs ih => simp [updLast_id, ih]

theorem stream_db_sessionIds (db : DB) (prompt sid user now : String)
    (nodes : List Node) (newMsgs : List String) :
    ((stream_messages db prompt sid user nodes newMsgs now).db).sessionIds =
      db.sessionIds := by
  unfold stream_messages
  cases hfs : findSession db sid user with
  | none =>
    have h1 : get_session_agent db sid user =
        .error ("Session " ++ sid ++ " not found for user " ++ user) := by
      unfold get_session_agent
      rw [hfs]
    simp only [h1]
  | some r =>
    simp only [get_session_agent_of_find db sid user r hfs]
    cases hreg : all_agents.contains r.agent_name with
    | false =>
      simp only [get_agent_of_not_contains r.agent_name hreg]
    | true =>
      simp only [get_agent_of_contains r.agent_name hreg]
      rcases hp : processNodes nodes with ⟨events, perr⟩
      simp only [hp]
      cases perr with
      | some d => rfl
      | none =>
        simp only [add_messages_existing db sid user r.agent_name now newMsgs r hfs]
        exact sessionIds_map_updLast db.sessions sid now

theorem delete_sessionIds_sub (db : DB) (sid u : String) (fault : Bool) (s : String)
    (h : s ∈ ((delete_session db sid u fault).2).sessionIds) : s ∈ db.sessionIds := by
  unfold delete_session at h
  cases hfs : findSession db sid u with
  | none =>
    rw [hfs] at h
    exact h
  | some r =>
    rw [hfs] at h
    cases fault with
    | true => exact h
    | false =>
      simp only [DB.sessionIds, List.mem_map] at h ⊢
      rcases h with ⟨r2, hr2, hid⟩
      exact ⟨r2, List.mem_of_mem_filter hr2, hid⟩

/-- Counterexample to C4 as stated: the POST `/sessions/new` route creates a
session eagerly, with no turn appended — a session-creating code path other
than the first turn append. -/
theorem C4_counterexample :
    (applyOp emptyDB (Op.newSessionOp "s1" "alice" "databot" "t0")).sessionIds =
      ["s1"] ∧
    Op.isTurnAppend (Op.newSessionOp "s1" "alice" "databot" "t0") = false ∧
    (applyOp emptyDB (Op.newSessionOp "s1" "alice" "databot" "t0")).messages = [] := by
  refine ⟨by decide, rfl, by decide⟩

/-- C4 (amended): across all application request handlers, a session is
created only by the explicit new-session route, which calls `ensureSession`
directly with the caller-supplied agent identifier and owner; in particular
the turn-append path inside a streaming run never creates one, because the
run requires the agent lookup on the existing session to succeed first. -/
theorem C4_session_creation_amended (db : DB) (op : Op) (s : String)
    (hnew : s ∈ (applyOp db op).sessionIds) (hold : s ∉ db.sessionIds) :
    ∃ user agent now : String, op = Op.newSessionOp s user agent now ∧
      (applyOp db op).sessions = db.sessions ++ [newSessionRow s user agent now] := by
  cases op with
  | getChatOp a b => exact absurd hnew hold
  | getAgentsOp => exact absurd hnew hold
  | getSessionsOp a => exact absurd hnew hold
  | deleteSessionOp sid u fault =>
    exact absurd (delete_sessionIds_sub db sid u fault s hnew) hold
  | postChatOp prompt sid u nodes newMsgs now =>
    rw [show applyOp db (Op.postChatOp prompt sid u nodes newMsgs now) =
      (stream_messages db prompt sid u nodes newMsgs now).db from rfl,
      stream_db_sessionIds db prompt sid u now nodes newMsgs] at hnew
    exact absurd hnew hold
  | newSessionOp sid u a n =>
    have happ : applyOp db (Op.newSessionOp sid u a n) =
        match create_new_session db sid u a n with
        | .ok (db1, _, _) => db1
        | .error _ => db := rfl
    cases hfs : findSession db sid u with
    | some r =>
      have hc : create_new_session db sid u a n = .ok (db, sid, a) := by
        unfold create_new_session
        rw [ensure_existing db sid u a n r hfs]
        rfl
      rw [happ, hc] at hnew
      exact absurd hnew hold
    | none =>
      cases hany : db.sessions.any (fun r => r.id == sid) with
      | true =>
        have hc : create_new_session db sid u a n =
            .error "UNIQUE constraint failed: sessions.id" := by
          unfold create_new_session ensure_session_exists
          rw [hfs, hany]
          rfl
        rw [happ, hc] at hnew
        exact absurd hnew hold
      | false =>
        have hfree : ∀ r ∈ db.sessions, r.id ≠ sid := by
          intro r hr
          have := List.any_eq_false.mp hany r hr
          simpa using this
        have hc : create_new_session db sid u a n =
            .ok ({ db with sessions := db.sessions ++ [newSessionRow sid u a n] },
              sid, a) := by
          unfold create_new_session
          rw [ensure_absent db sid u a n hfree]
          rfl
        rw [happ, hc] at hnew
        have hs : s = sid := by
          simp only [DB.sessionIds, List.map_append, List.mem_append] at hnew
          rcases hnew with h1 | h2
          · exact absurd h1 hold
          · simpa [newSessionRow] using h2
        subst hs
        refine ⟨u, a, n, rfl, ?_⟩
        rw [happ, hc]

/-- Witness for the amended C4: the one freshly created session id after a
new-session request is the request's own id, bound to its agent and owner. -/
theorem C4_session_creation_amended_witness :
    ∃ user agent now : String,
      Op.newSessionOp "s1" "alice" "databot" "t0" = Op.newSessionOp "s1" user agent now ∧
      (applyOp emptyDB (Op.newSessionOp "s1" "alice" "databot" "t0")).sessions =
        emptyDB.sessions ++ [newSessionRow "s1" user agent now] :=
  C4_session_creation_amended emptyDB (Op.newSessionOp "s1" "alice" "databot" "t0")
    "s1" (by decide) (by decide)

end AgentsBackend
